import Mathlib

/-
Verification of the sisyphus pick-and-place backend.

Shallow embedding of src/backend/coordinate_mapper.py,
src/backend/world_config.py and the simulation-state core of
src/backend/sim.py.  Python floats are modelled as exact rationals,
Python ints as Lean integers; fallible functions return Except.
-/

namespace Sisyphus

/-! ## Pixel and world value types -/

/-- A 2D pixel coordinate (Python tuple of ints). -/
structure PixelPos where
  x : ℤ
  y : ℤ
deriving DecidableEq, Repr

/-- A 3-component world position in meters (numpy array of 3 floats,
modelled as exact rationals). -/
structure WorldPos where
  x : ℚ
  y : ℚ
  z : ℚ
deriving DecidableEq, Repr

/-- Python int() truncation toward zero of a real value. -/
def pytrunc (q : ℚ) : ℤ := if 0 ≤ q then Int.floor q else Int.ceil q

/-- numpy.clip on integers: lo if v below lo, hi if v above hi, else v. -/
def npClipInt (v lo hi : ℤ) : ℤ := max lo (min v hi)

/-- numpy.clip on rationals. -/
def npClipRat (v lo hi : ℚ) : ℚ := max lo (min v hi)

/-! ## CoordinateMapper (src/backend/coordinate_mapper.py) -/

/-- CoordinateMapper.TABLE_SURFACE_Z = 0.81 -/
def TABLE_SURFACE_Z : ℚ := 81/100

/-- CoordinateMapper.OBJECT_ON_TABLE_Z = 0.86 -/
def OBJECT_ON_TABLE_Z : ℚ := 86/100

/-- CoordinateMapper.FLOOR_Z = 0.02 -/
def FLOOR_Z : ℚ := 2/100

/-- CoordinateMapper.GRIPPER_START_Z = 0.88 -/
def GRIPPER_START_Z : ℚ := 88/100

/-- CoordinateMapper.IMAGE_SIZE = 224 -/
def IMAGE_SIZE : ℤ := 224

/-- One per-scene manual annotation set: pixel coordinates of the five
landmarks, as produced by the external calibration editor
(the generated module world_calibration_manual). -/
structure ManualPositions where
  object_to_pickup : PixelPos
  obstacle_1 : PixelPos
  obstacle_2 : PixelPos
  gripper_start : PixelPos
  target_zone : PixelPos
deriving DecidableEq, Repr

/-- The four on-table landmark x coordinates used by _infer_world_bounds. -/
def tableXs (mp : ManualPositions) : List ℤ :=
  [mp.object_to_pickup.x, mp.obstacle_1.x, mp.obstacle_2.x, mp.gripper_start.x]

/-- The four on-table landmark y coordinates used by _infer_world_bounds. -/
def tableYs (mp : ManualPositions) : List ℤ :=
  [mp.object_to_pickup.y, mp.obstacle_1.y, mp.obstacle_2.y, mp.gripper_start.y]

/-- Python max over the four on-table x coordinates. -/
def maxX (mp : ManualPositions) : ℤ :=
  max mp.object_to_pickup.x (max mp.obstacle_1.x (max mp.obstacle_2.x mp.gripper_start.x))

/-- Python min over the four on-table x coordinates. -/
def minX (mp : ManualPositions) : ℤ :=
  min mp.object_to_pickup.x (min mp.obstacle_1.x (min mp.obstacle_2.x mp.gripper_start.x))

/-- Python max over the four on-table y coordinates. -/
def maxY (mp : ManualPositions) : ℤ :=
  max mp.object_to_pickup.y (max mp.obstacle_1.y (max mp.obstacle_2.y mp.gripper_start.y))

/-- Python min over the four on-table y coordinates. -/
def minY (mp : ManualPositions) : ℤ :=
  min mp.object_to_pickup.y (min mp.obstacle_1.y (min mp.obstacle_2.y mp.gripper_start.y))

/-- table_center_px from _infer_world_bounds: int(np.mean(xs)),
int(np.mean(ys)); the mean of four ints is exact in float64 and int()
truncates toward zero. -/
def inferTableCenterPx (mp : ManualPositions) : PixelPos :=
  ⟨pytrunc (((mp.object_to_pickup.x + mp.obstacle_1.x + mp.obstacle_2.x
      + mp.gripper_start.x : ℤ) : ℚ) / 4),
   pytrunc (((mp.object_to_pickup.y + mp.obstacle_1.y + mp.obstacle_2.y
      + mp.gripper_start.y : ℤ) : ℚ) / 4)⟩

/-- table_span_px from _infer_world_bounds:
max(max(xs)-min(xs), max(ys)-min(ys)). -/
def tableSpanPx (mp : ManualPositions) : ℤ :=
  max (maxX mp - minX mp) (maxY mp - minY mp)

/-- Physical table size assumed by _infer_world_bounds (0.6 m). -/
def tableDiameterMeters : ℚ := 6/10

/-- pixels_per_meter from _infer_world_bounds:
table_span_px / 0.6 if table_span_px > 0 else 100.0. -/
def inferPixelsPerMeter (mp : ManualPositions) : ℚ :=
  if 0 < tableSpanPx mp then (tableSpanPx mp : ℚ) / tableDiameterMeters else 100

/-- The state a CoordinateMapper carries after __init__ finished
_infer_world_bounds (the fields used by the conversions). -/
structure Mapper where
  table_center_px : PixelPos
  pixels_per_meter : ℚ
deriving DecidableEq, Repr

/-- CoordinateMapper.__init__ followed by _infer_world_bounds, for a
given annotation set. -/
def mkMapper (mp : ManualPositions) : Mapper :=
  ⟨inferTableCenterPx mp, inferPixelsPerMeter mp⟩

/-- The x/y part of pixel_to_world_3d: pixel offset from the table
center divided by pixels_per_meter, image y axis negated; z is the
level constant passed in. -/
def pixelToWorldCore (m : Mapper) (p : PixelPos) (z : ℚ) : WorldPos :=
  ⟨((p.x - m.table_center_px.x : ℤ) : ℚ) / m.pixels_per_meter,
   -(((p.y - m.table_center_px.y : ℤ) : ℚ)) / m.pixels_per_meter,
   z⟩

/-- CoordinateMapper.pixel_to_world_3d: dispatch on the z_level tag,
raising ValueError (modelled as Except.error) on an unknown tag. -/
def pixel_to_world_3d (m : Mapper) (p : PixelPos) (z_level : String) :
    Except String WorldPos :=
  if z_level = "table" then .ok (pixelToWorldCore m p OBJECT_ON_TABLE_Z)
  else if z_level = "floor" then .ok (pixelToWorldCore m p FLOOR_Z)
  else if z_level = "gripper" then .ok (pixelToWorldCore m p GRIPPER_START_Z)
  else .error ("Unknown z_level: " ++ z_level)

/-- CoordinateMapper.world_to_pixel_2d: inverse affine transform, z
ignored, int() truncation, result clamped into the image. -/
def world_to_pixel_2d (m : Mapper) (w : WorldPos) : PixelPos :=
  ⟨npClipInt (m.table_center_px.x + pytrunc (w.x * m.pixels_per_meter)) 0 (IMAGE_SIZE - 1),
   npClipInt (m.table_center_px.y + pytrunc (-w.y * m.pixels_per_meter)) 0 (IMAGE_SIZE - 1)⟩

/-- Whether an Except value is a success. -/
def isOkB (e : Except String WorldPos) : Bool :=
  match e with
  | .ok _ => true
  | .error _ => false

/-- The initial 3D layout computed by
CoordinateMapper.get_initial_object_positions_3d. -/
structure Layout where
  object_to_pickup : WorldPos
  obstacle_1 : WorldPos
  obstacle_2 : WorldPos
  gripper_start : WorldPos
  target_zone : WorldPos
deriving DecidableEq, Repr

/-- CoordinateMapper.get_initial_object_positions_3d: table level for
the three movable objects, gripper level for the gripper start, floor
level for the target zone. -/
def getInitialObjectPositions3d (mp : ManualPositions) : Layout :=
  let m := mkMapper mp
  ⟨pixelToWorldCore m mp.object_to_pickup OBJECT_ON_TABLE_Z,
   pixelToWorldCore m mp.obstacle_1 OBJECT_ON_TABLE_Z,
   pixelToWorldCore m mp.obstacle_2 OBJECT_ON_TABLE_Z,
   pixelToWorldCore m mp.gripper_start GRIPPER_START_Z,
   pixelToWorldCore m mp.target_zone FLOOR_Z⟩

/-! ## WorldCalibration registry (src/backend/world_config.py) -/

/-- Calibration parameters for a specific Marble world. -/
structure WorldCalibration where
  world_id : ℤ
  table_center_px : PixelPos
  table_radius_px : ℤ
  floor_center_px : PixelPos
  pixels_per_meter : ℚ
deriving DecidableEq, Repr

/-- WORLD_CALIBRATIONS entry for world 1. -/
def calibration1 : WorldCalibration := ⟨1, ⟨75, 137⟩, 45, ⟨60, 190⟩, 150⟩

/-- WORLD_CALIBRATIONS entry for world 2. -/
def calibration2 : WorldCalibration := ⟨2, ⟨70, 105⟩, 50, ⟨50, 170⟩, 165⟩

/-- WORLD_CALIBRATIONS entry for world 3. -/
def calibration3 : WorldCalibration := ⟨3, ⟨70, 137⟩, 42, ⟨65, 185⟩, 140⟩

/-- get_world_calibration: dictionary lookup over the keys 1, 2, 3,
raising ValueError (modelled as Except.error) listing the valid ids
when the key is unknown. -/
def get_world_calibration (world_id : ℤ) : Except String WorldCalibration :=
  if world_id = 1 then .ok calibration1
  else if world_id = 2 then .ok calibration2
  else if world_id = 3 then .ok calibration3
  else .error ("No calibration for world " ++ toString world_id ++ ". Available: [1, 2, 3]")

/-! ## PickPlaceSimulation state core (src/backend/sim.py)

The rigid-body engine is external: each step() reads the current pose
of every movable body from it and then advances it.  The model
therefore takes, per step, the poses the engine reports at grasp-check
time as an oracle input and quantifies over them; the fields below are
exactly the Python-side state the grasp/clamp logic reads and writes. -/

/-- PyBullet body id of object_to_pickup (ids 0 and 1 are the static
table and floor created in __init__; reset creates the movables in a
fixed order). -/
def OBJECT_TO_PICKUP_ID : ℕ := 2

/-- PyBullet body id of obstacle_1. -/
def OBSTACLE_1_ID : ℕ := 3

/-- PyBullet body id of obstacle_2. -/
def OBSTACLE_2_ID : ℕ := 4

/-- PickPlaceSimulation.GRASP_DISTANCE_THRESHOLD = 0.06 m. -/
def GRASP_DISTANCE_THRESHOLD : ℚ := 6/100

/-- The action dictionary passed to step(). -/
structure SimAction where
  delta_x : ℚ
  delta_y : ℚ
  gripper : ℚ
deriving DecidableEq, Repr

/-- The movable-object poses the physics engine reports during one
step() call (p.getBasePositionAndOrientation at grasp-check time). -/
structure PhysicsReadout where
  object_to_pickup_pos : WorldPos
  obstacle_1_pos : WorldPos
  obstacle_2_pos : WorldPos
deriving DecidableEq, Repr

/-- The Python-side mutable state of PickPlaceSimulation that the
grasp state machine reads and writes. -/
structure SimCoreState where
  gripper_pos : WorldPos
  gripper_closed : Bool
  grasped_object_id : Option ℕ
  grasp_constraint : Option Unit
  step_count : ℕ
deriving DecidableEq, Repr

/-- np.linalg.norm(gripper - obj) < GRASP_DISTANCE_THRESHOLD, stated on
squares to stay in the rationals (both sides are nonnegative). -/
def distSqLtThreshold (a b : WorldPos) : Bool :=
  decide ((a.x - b.x)^2 + (a.y - b.y)^2 + (a.z - b.z)^2
    < GRASP_DISTANCE_THRESHOLD^2)

/-- The for loop of step(): scan the graspable objects in list order
and return the id of the first within the grasp threshold. -/
def tryGraspScan (gp : WorldPos) (objs : List (ℕ × WorldPos)) : Option ℕ :=
  match objs with
  | [] => none
  | (oid, opos) :: rest =>
      if distSqLtThreshold gp opos then some oid else tryGraspScan gp rest

/-- The gripper position step() commands: add the deltas and clamp
componentwise to the workspace bounds. -/
def newGripperPos (s : SimCoreState) (a : SimAction) : WorldPos :=
  ⟨npClipRat (s.gripper_pos.x + a.delta_x) (-(1/2)) (1/2),
   npClipRat (s.gripper_pos.y + a.delta_y) (-(3/10)) (3/10),
   npClipRat s.gripper_pos.z (82/100) (12/10)⟩

/-- PickPlaceSimulation.step on the Python-side state: move and clamp
the gripper, set the open/closed flag (closed iff gripper > 0.5),
run the level-triggered grasp/release logic against the engine-reported
object poses, and bump the step counter.  The physics substeps touch
only engine-owned body poses, not these fields. -/
def simStep (s : SimCoreState) (a : SimAction) (env : PhysicsReadout) : SimCoreState :=
  let gp := newGripperPos s a
  let closed : Bool := decide ((1:ℚ)/2 < a.gripper)
  if closed = true ∧ s.grasped_object_id = none then
    match tryGraspScan gp
        [(OBJECT_TO_PICKUP_ID, env.object_to_pickup_pos),
         (OBSTACLE_1_ID, env.obstacle_1_pos),
         (OBSTACLE_2_ID, env.obstacle_2_pos)] with
    | some oid => ⟨gp, closed, some oid, some (), s.step_count + 1⟩
    | none => ⟨gp, closed, s.grasped_object_id, s.grasp_constraint, s.step_count + 1⟩
  else if closed = false ∧ s.grasped_object_id ≠ none then
    ⟨gp, closed, none, none, s.step_count + 1⟩
  else
    ⟨gp, closed, s.grasped_object_id, s.grasp_constraint, s.step_count + 1⟩

/-- PickPlaceSimulation.reset on the Python-side state: gripper at the
layout gripper_start, open, nothing grasped, no constraint, counter 0.
The settling ticks move only engine-owned dynamic bodies. -/
def simReset (mp : ManualPositions) : SimCoreState :=
  ⟨(getInitialObjectPositions3d mp).gripper_start, false, none, none, 0⟩

/-- Run a sequence of step() calls, each with its action and its
engine-reported object poses. -/
def simRun (s : SimCoreState) (trace : List (SimAction × PhysicsReadout)) : SimCoreState :=
  match trace with
  | [] => s
  | (a, env) :: rest => simRun (simStep s a env) rest

/-- Modelled from the spec: the per-scene annotation data lives in the
generated module world_calibration_manual, which is absent from the
sources (only the generating tool is present).  Scene 1 is modelled to
satisfy the literal scenario of spec section 8: reset(scene=1) places
the pick object at world (0.0, 0.0, 0.86) and the gripper at
(0.0, 0.0, 0.88). -/
def scene1ManualPositions : ManualPositions :=
  ⟨⟨112, 112⟩, ⟨82, 112⟩, ⟨142, 112⟩, ⟨112, 112⟩, ⟨112, 190⟩⟩

/-- The workspace clamp range of step(): x in [-0.5, 0.5],
y in [-0.3, 0.3], z in [0.82, 1.2]. -/
def GripperInBounds (s : SimCoreState) : Prop :=
  -(1/2) ≤ s.gripper_pos.x ∧ s.gripper_pos.x ≤ 1/2
  ∧ -(3/10) ≤ s.gripper_pos.y ∧ s.gripper_pos.y ≤ 3/10
  ∧ 82/100 ≤ s.gripper_pos.z ∧ s.gripper_pos.z ≤ 12/10

instance (s : SimCoreState) : Decidable (GripperInBounds s) := by
  unfold GripperInBounds; infer_instance

/-! ## Helper lemmas -/

theorem pytrunc_intCast (n : ℤ) : pytrunc (n : ℚ) = n := by
  unfold pytrunc
  by_cases h : (0:ℚ) ≤ (n : ℚ)
  · simp [h]
  · simp [h]

theorem npClipInt_of_mem (v lo hi : ℤ) (h1 : lo ≤ v) (h2 : v ≤ hi) :
    npClipInt v lo hi = v := by
  unfold npClipInt
  rw [min_eq_left h2, max_eq_right h1]

theorem npClipRat_mem (v lo hi : ℚ) (h : lo ≤ hi) :
    lo ≤ npClipRat v lo hi ∧ npClipRat v lo hi ≤ hi := by
  unfold npClipRat
  exact ⟨le_max_left _ _, max_le h (min_le_right _ _)⟩

theorem inferPixelsPerMeter_pos (mp : ManualPositions) :
    0 < inferPixelsPerMeter mp := by
  unfold inferPixelsPerMeter
  by_cases h : 0 < tableSpanPx mp
  · simp only [h, if_true]
    apply div_pos
    · exact_mod_cast h
    · norm_num [tableDiameterMeters]
  · simp only [h, if_false]
    norm_num

theorem mkMapper_ppm_pos (mp : ManualPositions) :
    0 < (mkMapper mp).pixels_per_meter :=
  inferPixelsPerMeter_pos mp

/-- The exact inverse property at the heart of the round trip: with a
nonzero scale, converting a pixel to world x/y and back yields the
original pixel offsets before clamping. -/
theorem world_to_pixel_2d_core (m : Mapper) (p : PixelPos) (z : ℚ)
    (hppm : m.pixels_per_meter ≠ 0) :
    world_to_pixel_2d m (pixelToWorldCore m p z) =
      ⟨npClipInt p.x 0 (IMAGE_SIZE - 1), npClipInt p.y 0 (IMAGE_SIZE - 1)⟩ := by
  unfold world_to_pixel_2d pixelToWorldCore
  simp only
  rw [div_mul_cancel₀ _ hppm]
  rw [neg_div, neg_neg, div_mul_cancel₀ _ hppm]
  rw [pytrunc_intCast, pytrunc_intCast]
  congr 1 <;> ring_nf

/-! ## Claim theorems: coordinate mapper and registry -/

/-- Claim C6: pixel_to_world_3d fails with an invalid-argument error
exactly when the z_level tag is not one of table, floor, gripper; for
each recognized tag the returned pose carries the fixed z constant of
that tag (0.86, 0.02, 0.88). -/
theorem pixel_to_world_3d_level_spec (m : Mapper) (p : PixelPos) (lvl : String) :
    (isOkB (pixel_to_world_3d m p lvl) = false
      ↔ ¬(lvl = "table" ∨ lvl = "floor" ∨ lvl = "gripper"))
    ∧ Except.map (fun w => w.z) (pixel_to_world_3d m p "table") = .ok (86/100)
    ∧ Except.map (fun w => w.z) (pixel_to_world_3d m p "floor") = .ok (2/100)
    ∧ Except.map (fun w => w.z) (pixel_to_world_3d m p "gripper") = .ok (88/100) := by
  refine ⟨?_, rfl, rfl, rfl⟩
  by_cases h1 : lvl = "table"
  · simp [pixel_to_world_3d, isOkB, h1]
  · by_cases h2 : lvl = "floor"
    · simp [pixel_to_world_3d, isOkB, h1, h2]
    · by_cases h3 : lvl = "gripper"
      · simp [pixel_to_world_3d, isOkB, h1, h2, h3]
      · simp [pixel_to_world_3d, isOkB, h1, h2, h3]

/-- Claim C7: world_to_pixel_2d is total, ignores the z component, and
always clamps both pixel components into [0, IMAGE_SIZE). -/
theorem world_to_pixel_2d_total_clamped (m : Mapper) (w : WorldPos) :
    0 ≤ (world_to_pixel_2d m w).x ∧ (world_to_pixel_2d m w).x ≤ IMAGE_SIZE - 1
    ∧ 0 ≤ (world_to_pixel_2d m w).y ∧ (world_to_pixel_2d m w).y ≤ IMAGE_SIZE - 1
    ∧ (∀ zNew : ℚ, world_to_pixel_2d m ⟨w.x, w.y, zNew⟩ = world_to_pixel_2d m w) := by
  unfold world_to_pixel_2d npClipInt
  refine ⟨le_max_left _ _,
    max_le (by norm_num [IMAGE_SIZE]) (min_le_right _ _),
    le_max_left _ _,
    max_le (by norm_num [IMAGE_SIZE]) (min_le_right _ _),
    fun zNew => rfl⟩

/-- Claim C8: get_world_calibration returns the stored entry unchanged
for each known world id and fails, with an error message listing the
valid ids, for every unknown id; it never substitutes a default. -/
theorem get_world_calibration_spec :
    (∀ w : ℤ, w ≠ 1 → w ≠ 2 → w ≠ 3 →
      get_world_calibration w =
        .error ("No calibration for world " ++ toString w ++ ". Available: [1, 2, 3]"))
    ∧ get_world_calibration 1 = .ok calibration1
    ∧ get_world_calibration 2 = .ok calibration2
    ∧ get_world_calibration 3 = .ok calibration3 := by
  refine ⟨fun w h1 h2 h3 => ?_, rfl, rfl, rfl⟩
  simp [get_world_calibration, h1, h2, h3]

/-- Witness for C8 at the unknown id 7. -/
theorem get_world_calibration_spec_witness :
    get_world_calibration 7 =
      .error ("No calibration for world " ++ toString (7:ℤ) ++ ". Available: [1, 2, 3]") :=
  get_world_calibration_spec.1 7 (by decide) (by decide) (by decide)

/-- Claim C9: mapper construction never divides by zero: the inferred
scale is positive for every annotation set, and when all four on-table
landmarks share one pixel coordinate the fallback constant 100.0 is
used. -/
theorem mapper_scale_fallback (mp : ManualPositions) :
    0 < (mkMapper mp).pixels_per_meter
    ∧ (mp.obstacle_1 = mp.object_to_pickup →
       mp.obstacle_2 = mp.object_to_pickup →
       mp.gripper_start = mp.object_to_pickup →
       (mkMapper mp).pixels_per_meter = 100) := by
  refine ⟨mkMapper_ppm_pos mp, fun h1 h2 h3 => ?_⟩
  have hspan : tableSpanPx mp = 0 := by
    simp [tableSpanPx, maxX, minX, maxY, minY, h1, h2, h3]
  have hnot : ¬ 0 < tableSpanPx mp := by omega
  simp [mkMapper, inferPixelsPerMeter, hnot]

/-- Witness for C9 at a degenerate annotation set with all four
on-table landmarks at pixel (7, 9). -/
theorem mapper_scale_fallback_witness :
    0 < (mkMapper ⟨⟨7, 9⟩, ⟨7, 9⟩, ⟨7, 9⟩, ⟨7, 9⟩, ⟨3, 4⟩⟩).pixels_per_meter
    ∧ (mkMapper ⟨⟨7, 9⟩, ⟨7, 9⟩, ⟨7, 9⟩, ⟨7, 9⟩, ⟨3, 4⟩⟩).pixels_per_meter = 100 :=
  ⟨(mapper_scale_fallback _).1, (mapper_scale_fallback _).2 rfl rfl rfl⟩

/-- Claim C1: for every scene (any annotation set), every pixel inside
the 224-pixel image and every recognized z-level, converting the pixel
to world coordinates and back returns the same pixel within one unit
in each component (in fact exactly, in exact arithmetic). -/
theorem roundtrip_pixel_world_pixel (mp : ManualPositions) (p : PixelPos) (lvl : String)
    (hx0 : 0 ≤ p.x) (hx1 : p.x < IMAGE_SIZE) (hy0 : 0 ≤ p.y) (hy1 : p.y < IMAGE_SIZE)
    (hlvl : lvl = "table" ∨ lvl = "floor" ∨ lvl = "gripper")
    (w : WorldPos) (hw : pixel_to_world_3d (mkMapper mp) p lvl = .ok w) :
    ((world_to_pixel_2d (mkMapper mp) w).x - p.x).natAbs ≤ 1
    ∧ ((world_to_pixel_2d (mkMapper mp) w).y - p.y).natAbs ≤ 1 := by
  have hppm : (mkMapper mp).pixels_per_meter ≠ 0 := ne_of_gt (mkMapper_ppm_pos mp)
  have hcx : npClipInt p.x 0 (IMAGE_SIZE - 1) = p.x := npClipInt_of_mem _ _ _ hx0 (by omega)
  have hcy : npClipInt p.y 0 (IMAGE_SIZE - 1) = p.y := npClipInt_of_mem _ _ _ hy0 (by omega)
  have hwc : ∃ z, w = pixelToWorldCore (mkMapper mp) p z := by
    rcases hlvl with h | h | h <;> subst h <;>
      simp [pixel_to_world_3d] at hw <;>
      exact ⟨_, hw.symm⟩
  obtain ⟨z, hz⟩ := hwc
  subst hz
  rw [world_to_pixel_2d_core _ _ _ hppm]
  simp [hcx, hcy]

/-- Witness for C1: scene-1 annotation set, pixel (50, 60), table
level. -/
theorem roundtrip_pixel_world_pixel_witness :
    ((world_to_pixel_2d (mkMapper scene1ManualPositions)
        (pixelToWorldCore (mkMapper scene1ManualPositions) ⟨50, 60⟩ OBJECT_ON_TABLE_Z)).x
      - 50).natAbs ≤ 1
    ∧ ((world_to_pixel_2d (mkMapper scene1ManualPositions)
        (pixelToWorldCore (mkMapper scene1ManualPositions) ⟨50, 60⟩ OBJECT_ON_TABLE_Z)).y
      - 60).natAbs ≤ 1 :=
  roundtrip_pixel_world_pixel scene1ManualPositions ⟨50, 60⟩ "table"
    (by decide) (by decide) (by decide) (by decide) (Or.inl rfl) _ rfl

/-! ## Simulation lemmas -/

theorem simStep_gripper_pos (s : SimCoreState) (a : SimAction) (env : PhysicsReadout) :
    (simStep s a env).gripper_pos = newGripperPos s a := by
  dsimp only [simStep]
  split
  · split <;> rfl
  · split <;> rfl

theorem simStep_step_count (s : SimCoreState) (a : SimAction) (env : PhysicsReadout) :
    (simStep s a env).step_count = s.step_count + 1 := by
  dsimp only [simStep]
  split
  · split <;> rfl
  · split <;> rfl

theorem npClipRat_z_id : npClipRat (88/100) (82/100) (12/10) = 88/100 := by
  unfold npClipRat
  rw [min_eq_left (by norm_num), max_eq_right (by norm_num)]

theorem simStep_inBounds (s : SimCoreState) (a : SimAction) (env : PhysicsReadout) :
    GripperInBounds (simStep s a env) := by
  unfold GripperInBounds
  rw [simStep_gripper_pos]
  unfold newGripperPos
  exact ⟨(npClipRat_mem _ _ _ (by norm_num)).1, (npClipRat_mem _ _ _ (by norm_num)).2,
    (npClipRat_mem _ _ _ (by norm_num)).1, (npClipRat_mem _ _ _ (by norm_num)).2,
    (npClipRat_mem _ _ _ (by norm_num)).1, (npClipRat_mem _ _ _ (by norm_num)).2⟩

theorem simRun_inBounds (trace : List (SimAction × PhysicsReadout)) (s : SimCoreState)
    (h : GripperInBounds s) : GripperInBounds (simRun s trace) := by
  induction trace generalizing s with
  | nil => exact h
  | cons p rest ih => exact ih _ (simStep_inBounds s p.1 p.2)

/-! ## Claim theorems: simulation -/

/-- Claim C10: step() never changes the gripper z: the reset value
0.88 lies inside the clamp range [0.82, 1.2], so for every annotation
set and every run the gripper z equals its reset value in every
snapshot. -/
theorem gripper_z_constant (mp : ManualPositions)
    (trace : List (SimAction × PhysicsReadout)) :
    (simRun (simReset mp) trace).gripper_pos.z = 88/100 := by
  suffices h : ∀ s : SimCoreState, s.gripper_pos.z = 88/100 →
      (simRun s trace).gripper_pos.z = 88/100 from h _ rfl
  induction trace with
  | nil => exact fun s hs => hs
  | cons p rest ih =>
      intro s hs
      refine ih _ ?_
      rw [simStep_gripper_pos]
      show npClipRat s.gripper_pos.z (82/100) (12/10) = 88/100
      rw [hs, npClipRat_z_id]

/-- Claim C3: the step() clamp keeps the gripper inside x in
[-0.5, 0.5], y in [-0.3, 0.3], z in [0.82, 1.2] after every step,
for arbitrary (also out-of-range) deltas, from any reset; and for the
spec-modelled scene-1 annotation this holds from reset on, empty
sequence included.  Deltas are absorbed by the clamp, never
rejected (simStep is total). -/
theorem gripper_within_workspace_bounds :
    (∀ (mp : ManualPositions) (trace : List (SimAction × PhysicsReadout)),
      trace ≠ [] → GripperInBounds (simRun (simReset mp) trace))
    ∧ (∀ trace : List (SimAction × PhysicsReadout),
      GripperInBounds (simRun (simReset scene1ManualPositions) trace)) := by
  constructor
  · intro mp trace htr
    match trace with
    | [] => exact absurd rfl htr
    | (a, env) :: rest =>
        exact simRun_inBounds rest _ (simStep_inBounds (simReset mp) a env)
  · intro trace
    refine simRun_inBounds trace _ ?_
    show GripperInBounds (simReset scene1ManualPositions)
    norm_num [GripperInBounds, simReset, getInitialObjectPositions3d, pixelToWorldCore,
      mkMapper, inferTableCenterPx, inferPixelsPerMeter, tableSpanPx, maxX, minX, maxY,
      minY, scene1ManualPositions, pytrunc, tableDiameterMeters, GRIPPER_START_Z]

/-- Witness for C3: one step with a large out-of-range delta from the
scene-1 reset. -/
theorem gripper_within_workspace_bounds_witness :
    GripperInBounds (simRun (simReset scene1ManualPositions)
      [(⟨100, -100, 0⟩, ⟨⟨0, 0, 0⟩, ⟨0, 0, 0⟩, ⟨0, 0, 0⟩⟩)]) :=
  gripper_within_workspace_bounds.1 scene1ManualPositions
    [(⟨100, -100, 0⟩, ⟨⟨0, 0, 0⟩, ⟨0, 0, 0⟩, ⟨0, 0, 0⟩⟩)] (by simp)

/-- The grasp-exclusivity invariant: the grasped id names one of the
three movable bodies created at reset, and the single grasp constraint
exists exactly when something is grasped. -/
def GraspInv (s : SimCoreState) : Prop :=
  (s.grasped_object_id = none ∨ s.grasped_object_id = some OBJECT_TO_PICKUP_ID
    ∨ s.grasped_object_id = some OBSTACLE_1_ID
    ∨ s.grasped_object_id = some OBSTACLE_2_ID)
  ∧ (s.grasp_constraint = none ↔ s.grasped_object_id = none)

theorem tryGraspScan_mem (gp : WorldPos) (objs : List (ℕ × WorldPos)) (oid : ℕ)
    (h : tryGraspScan gp objs = some oid) : oid ∈ objs.map Prod.fst := by
  induction objs with
  | nil => exact absurd h (by simp [tryGraspScan])
  | cons q rest ih =>
      rw [tryGraspScan] at h
      by_cases hd : distSqLtThreshold gp q.2 = true
      · simp only [hd, if_true] at h
        simp [← Option.some.injEq _ _ |>.mp h]
      · simp only [hd] at h
        simp only [Bool.false_eq_true, if_false] at h
        simp [ih h]

theorem simStep_graspInv (s : SimCoreState) (a : SimAction) (env : PhysicsReadout)
    (h : GraspInv s) : GraspInv (simStep s a env) := by
  obtain ⟨hid, hcon⟩ := h
  dsimp only [simStep]
  split
  · rename_i hguard
    split
    · rename_i oid hscan
      have := tryGraspScan_mem _ _ _ hscan
      simp only [List.map_cons, List.map_nil, List.mem_cons, List.not_mem_nil,
        or_false] at this
      constructor
      · rcases this with h | h | h <;> simp [h]
      · simp
    · exact ⟨hid, hcon⟩
  · split
    · exact ⟨Or.inl rfl, by simp⟩
    · exact ⟨hid, hcon⟩

theorem simRun_graspInv (trace : List (SimAction × PhysicsReadout)) (s : SimCoreState)
    (h : GraspInv s) : GraspInv (simRun s trace) := by
  induction trace generalizing s with
  | nil => exact h
  | cons p rest ih => exact ih _ (simStep_graspInv s p.1 p.2 h)

/-- Claim C2: in every state reachable from reset by any sequence of
steps, the grasped object id is None or the id of exactly one of the
three movable bodies (their ids are pairwise distinct), and the grasp
constraint exists exactly when an object is grasped, so at most one
grasp constraint exists at any time. -/
theorem grasped_object_exclusive (mp : ManualPositions)
    (trace : List (SimAction × PhysicsReadout)) :
    ((simRun (simReset mp) trace).grasped_object_id = none
      ∨ (simRun (simReset mp) trace).grasped_object_id = some OBJECT_TO_PICKUP_ID
      ∨ (simRun (simReset mp) trace).grasped_object_id = some OBSTACLE_1_ID
      ∨ (simRun (simReset mp) trace).grasped_object_id = some OBSTACLE_2_ID)
    ∧ ((simRun (simReset mp) trace).grasp_constraint = none
      ↔ (simRun (simReset mp) trace).grasped_object_id = none)
    ∧ OBJECT_TO_PICKUP_ID ≠ OBSTACLE_1_ID
    ∧ OBJECT_TO_PICKUP_ID ≠ OBSTACLE_2_ID
    ∧ OBSTACLE_1_ID ≠ OBSTACLE_2_ID := by
  have h := simRun_graspInv trace (simReset mp) ⟨Or.inl rfl, by simp [simReset]⟩
  exact ⟨h.1, h.2, by decide, by decide, by decide⟩

theorem simStep_grasp_case (s : SimCoreState) (a : SimAction) (env : PhysicsReadout)
    (hclosed : (1:ℚ)/2 < a.gripper) (hnone : s.grasped_object_id = none) :
    simStep s a env =
      if distSqLtThreshold (newGripperPos s a) env.object_to_pickup_pos then
        ⟨newGripperPos s a, true, some OBJECT_TO_PICKUP_ID, some (), s.step_count + 1⟩
      else if distSqLtThreshold (newGripperPos s a) env.obstacle_1_pos then
        ⟨newGripperPos s a, true, some OBSTACLE_1_ID, some (), s.step_count + 1⟩
      else if distSqLtThreshold (newGripperPos s a) env.obstacle_2_pos then
        ⟨newGripperPos s a, true, some OBSTACLE_2_ID, some (), s.step_count + 1⟩
      else ⟨newGripperPos s a, true, none, s.grasp_constraint, s.step_count + 1⟩ := by
  have hc : decide ((1:ℚ)/2 < a.gripper) = true := decide_eq_true hclosed
  dsimp only [simStep]
  rw [hc]
  simp only [hnone, and_self, if_true, tryGraspScan]
  split_ifs <;> simp_all

/-- Claim C4: with the gripper commanded closed and nothing grasped,
step() scans object_to_pickup, obstacle_1, obstacle_2 in that order
and attaches to the first within the 0.06 m threshold of the (new)
gripper position; a lower-priority object is never grasped while a
higher-priority one is within threshold, and with nothing in range the
grasp state is untouched and only the flag, counter (and clamped
gripper motion) change. -/
theorem step_grasp_priority (s : SimCoreState) (a : SimAction) (env : PhysicsReadout)
    (hclosed : (1:ℚ)/2 < a.gripper) (hnone : s.grasped_object_id = none) :
    (distSqLtThreshold (newGripperPos s a) env.object_to_pickup_pos = true →
      (simStep s a env).grasped_object_id = some OBJECT_TO_PICKUP_ID
      ∧ (simStep s a env).grasp_constraint = some ())
    ∧ (distSqLtThreshold (newGripperPos s a) env.object_to_pickup_pos = false →
       distSqLtThreshold (newGripperPos s a) env.obstacle_1_pos = true →
      (simStep s a env).grasped_object_id = some OBSTACLE_1_ID
      ∧ (simStep s a env).grasp_constraint = some ())
    ∧ (distSqLtThreshold (newGripperPos s a) env.object_to_pickup_pos = false →
       distSqLtThreshold (newGripperPos s a) env.obstacle_1_pos = false →
       distSqLtThreshold (newGripperPos s a) env.obstacle_2_pos = true →
      (simStep s a env).grasped_object_id = some OBSTACLE_2_ID
      ∧ (simStep s a env).grasp_constraint = some ())
    ∧ (distSqLtThreshold (newGripperPos s a) env.object_to_pickup_pos = false →
       distSqLtThreshold (newGripperPos s a) env.obstacle_1_pos = false →
       distSqLtThreshold (newGripperPos s a) env.obstacle_2_pos = false →
      (simStep s a env).grasped_object_id = none
      ∧ (simStep s a env).grasp_constraint = s.grasp_constraint
      ∧ (simStep s a env).gripper_closed = true
      ∧ (simStep s a env).gripper_pos = newGripperPos s a
      ∧ (simStep s a env).step_count = s.step_count + 1) := by
  rw [simStep_grasp_case s a env hclosed hnone]
  refine ⟨fun h1 => ?_, fun h1 h2 => ?_, fun h1 h2 h3 => ?_, fun h1 h2 h3 => ?_⟩ <;>
    simp [h1] <;> simp [h2] <;> simp [h3]

/-- Witness for C4: gripper closing at the pick object from a concrete
state; the highest-priority object is within threshold and is grasped. -/
theorem step_grasp_priority_witness :
    (simStep ⟨⟨0, 0, 88/100⟩, false, none, none, 5⟩ ⟨0, 0, 1⟩
        ⟨⟨0, 0, 88/100⟩, ⟨1, 1, 1⟩, ⟨2, 2, 2⟩⟩).grasped_object_id
      = some OBJECT_TO_PICKUP_ID
    ∧ (simStep ⟨⟨0, 0, 88/100⟩, false, none, none, 5⟩ ⟨0, 0, 1⟩
        ⟨⟨0, 0, 88/100⟩, ⟨1, 1, 1⟩, ⟨2, 2, 2⟩⟩).grasp_constraint = some () :=
  (step_grasp_priority ⟨⟨0, 0, 88/100⟩, false, none, none, 5⟩ ⟨0, 0, 1⟩
      ⟨⟨0, 0, 88/100⟩, ⟨1, 1, 1⟩, ⟨2, 2, 2⟩⟩ (by norm_num) rfl).1
    (by norm_num [distSqLtThreshold, newGripperPos, npClipRat, GRASP_DISTANCE_THRESHOLD])

/-- Claim C5: a step commanded open while an object is grasped
destroys the constraint and clears the grasped id in the state the
same step() call snapshots, unconditionally. -/
theorem step_release_unconditional (s : SimCoreState) (a : SimAction) (env : PhysicsReadout)
    (hopen : ¬ ((1:ℚ)/2 < a.gripper)) (hg : s.grasped_object_id ≠ none) :
    (simStep s a env).grasped_object_id = none
    ∧ (simStep s a env).grasp_constraint = none := by
  have hc : decide ((1:ℚ)/2 < a.gripper) = false := decide_eq_false hopen
  dsimp only [simStep]
  rw [hc]
  simp [hg]

/-- Witness for C5: opening the gripper while obstacle_1 is grasped. -/
theorem step_release_unconditional_witness :
    (simStep ⟨⟨0, 0, 88/100⟩, true, some OBSTACLE_1_ID, some (), 9⟩ ⟨0, 0, 0⟩
        ⟨⟨0, 0, 0⟩, ⟨0, 0, 0⟩, ⟨0, 0, 0⟩⟩).grasped_object_id = none
    ∧ (simStep ⟨⟨0, 0, 88/100⟩, true, some OBSTACLE_1_ID, some (), 9⟩ ⟨0, 0, 0⟩
        ⟨⟨0, 0, 0⟩, ⟨0, 0, 0⟩, ⟨0, 0, 0⟩⟩).grasp_constraint = none :=
  step_release_unconditional ⟨⟨0, 0, 88/100⟩, true, some OBSTACLE_1_ID, some (), 9⟩
    ⟨0, 0, 0⟩ ⟨⟨0, 0, 0⟩, ⟨0, 0, 0⟩, ⟨0, 0, 0⟩⟩ (by norm_num) (by simp)

end Sisyphus
